import Mathlib

/-
Verification development for the flex request-routing library
(src/flex/core.py, src/flex/models.py).

The embedding models Python values flowing through the intent dispatcher
as an inductive type PyVal; Python dicts are association lists in
declaration/insertion order.  Fallible Python code (code that can raise)
is modelled with Except PyErr.  External library behaviour that the
repository only calls into (the aniso8601 ISO-8601 parser, the builtin
slot converters from the convert module, the xml.etree parser) is
abstracted as explicit function parameters, so every theorem quantifies
over it.
-/

namespace Flex

/-- Python exceptions relevant to the modelled code paths. -/
inductive PyErr where
  | attributeError
  | typeError
  | valueError
  | notImplementedError (msg : String)
  | custom (msg : String)
deriving DecidableEq, Repr

mutual
/-- A Python value as seen by the flex core: None, strings, numbers,
booleans, datetime objects produced by the ISO-8601 parser, opaque
objects (results of user converters or defaults), and dicts.  A dict
carries a flag recording whether it is an instance of the Field wrapper
class from models.py (a dict subclass); entries are in insertion order. -/
inductive PyVal where
  | pynone
  | str (s : String)
  | int (n : Int)
  | boolean (b : Bool)
  | datetime (iso : String)
  | pyobj (tag : Nat)
  | dict (isField : Bool) (entries : PyEntries)
/-- Entries of a Python dict, in insertion order. -/
inductive PyEntries where
  | pnil
  | pcons (key : String) (value : PyVal) (rest : PyEntries)
end

mutual
/-- Recursive wrapping performed by the Field constructor in models.py:
a dict value is replaced by a Field built from it (re-wrapping all of
its own dict values); every other value is stored unchanged. -/
def wrapVal : PyVal → PyVal
  | .dict _ es => .dict true (wrapEntries es)
  | v => v

/-- Pointwise wrapping of dict entries, as done by the loop in the Field
constructor. -/
def wrapEntries : PyEntries → PyEntries
  | .pnil => .pnil
  | .pcons k v rest => .pcons k (wrapVal v) (wrapEntries rest)
end

/-- Model of the Field constructor itself: called on a mapping with the
given entries, it produces a Field (dict with the wrapper flag) whose
dict values are recursively wrapped. -/
def fieldInit (es : PyEntries) : PyVal :=
  .dict true (wrapEntries es)

mutual
/-- Every dict reachable as a (possibly nested) mapping value is a
wrapped Field. -/
def allWrapped : PyVal → Bool
  | .dict isField es => isField && entriesAllWrapped es
  | _ => true

/-- allWrapped over all entry values. -/
def entriesAllWrapped : PyEntries → Bool
  | .pnil => true
  | .pcons _ v rest => allWrapped v && entriesAllWrapped rest
end

deriving instance DecidableEq for PyVal

/-- Keyed lookup in a dict (dict.get with no default returns None for a
missing key; our PyEntries never hold duplicate keys on real payloads,
and lookup returns the first match). -/
def fieldGet : PyEntries → String → Option PyVal
  | .pnil, _ => Option.none
  | .pcons k v rest, attr => if k = attr then some v else fieldGet rest attr

/-- dict.get returning Python None for an absent key: both an absent key
and a stored JSON null read back as None, exactly as in Python. -/
def fieldGetRaw (es : PyEntries) (attr : String) : PyVal :=
  (fieldGet es attr).getD .pynone

/-- Whether the needle occurs at the head of the haystack. -/
def matchesHere : List Char → List Char → Bool
  | [], _ => true
  | _ :: _, [] => false
  | n :: ns, h :: hs => n == h && matchesHere ns hs

/-- Whether the needle occurs anywhere in the haystack. -/
def containsSub (needle : List Char) : List Char → Bool
  | [] => matchesHere needle []
  | h :: hs => matchesHere needle (h :: hs) || containsSub needle hs

/-- The Python substring membership test of models.py line 36: the
string timestamp occurs in attr. -/
def hasTimestampSub (attr : String) : Bool :=
  containsSub "timestamp".toList attr.toList

/-- Model of aniso8601.parse_datetime as called by the Field accessor:
on Python None (absent or null field) it raises AttributeError; on a
string it parses it as ISO-8601, raising ValueError when the string is
not valid ISO-8601; on any other value it raises AttributeError.  The
validity of a string is abstracted by the oracle isoOk, and a successful
parse of s is represented by the datetime value carrying s. -/
def parse_datetime (isoOk : String → Bool) : PyVal → Except PyErr PyVal
  | .str s => if isoOk s then .ok (.datetime s) else .error .valueError
  | _ => .error .attributeError

/-- Model of the Field attribute accessor (models.py lines 34-38): a key
whose name contains the substring timestamp is routed through the
ISO-8601 parser applied to the stored value (None when absent); any
other key returns the stored value, or None when absent, and never
raises. -/
def fieldGetattr (isoOk : String → Bool) (es : PyEntries) (attr : String) :
    Except PyErr PyVal :=
  if hasTimestampSub attr then parse_datetime isoOk (fieldGetRaw es attr)
  else .ok (fieldGetRaw es attr)

/-- External behaviour the dispatcher calls into, abstracted as
parameters.  Modelled from the spec: the three builtin shorthand
converters live in the convert module of this repository, which is not
under src; the spec only says the shorthand names date, time and
timedelta select the corresponding builtin parser, so the parsers
themselves are opaque parameters here.  isoOk abstracts which strings
the external aniso8601 library accepts as ISO-8601. -/
structure Ext where
  toDate : PyVal → Except PyErr PyVal
  toTime : PyVal → Except PyErr PyVal
  toTimedelta : PyVal → Except PyErr PyVal
  isoOk : String → Bool

/-- An entry of the per-intent convert table: either a string (possibly
one of the builtin shorthand names) or a caller-supplied callable. -/
inductive ConvEntry where
  | shorthand (s : String)
  | func (f : PyVal → Except PyErr PyVal)

/-- An entry of the per-intent default table: a zero-argument callable
or a plain value (core.py line 454 tests isinstance Callable). -/
inductive DefaultEntry where
  | value (v : PyVal)
  | callable (f : Unit → PyVal)

/-- The value a default entry resolves to at dispatch time: a callable
default is invoked now, a plain default is used literally. -/
def defaultResultOf : DefaultEntry → PyVal
  | .value v => v
  | .callable f => f ()

/-- Resolution of a convert-table entry to the function actually called
(core.py lines 458-463): a string that is one of the keys of the
builtin converters dict selects the builtin; any other value is called
directly, and calling a non-callable string raises TypeError, which the
surrounding try/except records as a conversion error. -/
def convFunc (ext : Ext) : ConvEntry → PyVal → Except PyErr PyVal
  | .shorthand s =>
      if s = "date" then ext.toDate
      else if s = "time" then ext.toTime
      else if s = "timedelta" then ext.toTimedelta
      else fun _ => .error .typeError
  | .func f => f

/-- The unfilled test of core.py line 451: arg_value is None or equals
the empty string. -/
def isUnfilled : PyVal → Bool
  | .pynone => true
  | .str s => s == ""
  | _ => false

/-- Building request_data (core.py lines 441-446): iterate the keys of
intent.slots and read each through the Field attribute accessor (which
can raise for timestamp-named slots).  The first argument holds the full
slots dict used for the reads; the second is the remaining keys. -/
def buildRD (ext : Ext) (full : PyEntries) :
    PyEntries → Except PyErr (List (String × PyVal))
  | .pnil => .ok []
  | .pcons k _ rest =>
      match fieldGetattr ext.isoOk full k with
      | .error e => .error e
      | .ok v =>
          match buildRD ext full rest with
          | .error e => .error e
          | .ok r => .ok ((k, v) :: r)

/-- request_data for a dispatch: empty when intent.slots is None; built
from the slot dict otherwise; a non-dict non-None slots value would
raise AttributeError on the keys call. -/
def buildRequestData (ext : Ext) (slots : PyVal) :
    Except PyErr (List (String × PyVal)) :=
  match slots with
  | .pynone => .ok []
  | .dict _ es => buildRD ext es es
  | _ => .error .attributeError

/-- Resolution of a single declared parameter when all three
registration tables are present (the registered-intent case), mirroring
the loop body of core.py lines 448-468.  Returns the positional value
together with the conversion error recorded for this parameter, if any. -/
def resolveOneP (ext : Ext) (mapping : List (String × String))
    (convert : List (String × ConvEntry))
    (dflt : List (String × DefaultEntry))
    (rd : List (String × PyVal)) (argName : String) :
    PyVal × Option PyErr :=
  let paramOrSlot := (List.lookup argName mapping).getD argName
  let argValue := (List.lookup paramOrSlot rd).getD .pynone
  if isUnfilled argValue then
    match List.lookup argName dflt with
    | some de => (defaultResultOf de, Option.none)
    | Option.none => (argValue, Option.none)
  else
    match List.lookup argName convert with
    | some ce =>
        match convFunc ext ce argValue with
        | .ok v => (v, Option.none)
        | .error e => (argValue, some e)
    | Option.none => (argValue, Option.none)

/-- The argument list together with the convert_errors mapping produced
by one dispatch (core.py lines 434-470). -/
structure ArgsResult where
  argValues : List PyVal
  convertErrors : List (String × PyErr)

/-- The parameter loop in the registered case: arguments in declared
order, conversion errors keyed by parameter name in loop order. -/
def resolveArgsP (ext : Ext) (mapping : List (String × String))
    (convert : List (String × ConvEntry))
    (dflt : List (String × DefaultEntry))
    (rd : List (String × PyVal)) : List String → ArgsResult
  | [] => ⟨[], []⟩
  | an :: rest =>
      let pr := resolveOneP ext mapping convert dflt rd an
      let r := resolveArgsP ext mapping convert dflt rd rest
      ⟨pr.1 :: r.argValues,
       match pr.2 with
       | some e => (an, e) :: r.convertErrors
       | Option.none => r.convertErrors⟩

/-- Resolution of a single parameter with possibly missing registration
tables, as they really reach the loop: for an unregistered view name the
dict .get calls of core.py lines 435-437 return None, after which
mapping.get raises AttributeError, and a membership test against a None
convert or default table raises TypeError. -/
def resolveOneE (ext : Ext) (mapping? : Option (List (String × String)))
    (convert? : Option (List (String × ConvEntry)))
    (dflt? : Option (List (String × DefaultEntry)))
    (rd : List (String × PyVal)) (argName : String) :
    Except PyErr (PyVal × Option PyErr) :=
  match mapping? with
  | Option.none => .error .attributeError
  | some mapping =>
      let paramOrSlot := (List.lookup argName mapping).getD argName
      let argValue := (List.lookup paramOrSlot rd).getD .pynone
      if isUnfilled argValue then
        match dflt? with
        | Option.none => .error .typeError
        | some dflt =>
            match List.lookup argName dflt with
            | some de => .ok (defaultResultOf de, Option.none)
            | Option.none => .ok (argValue, Option.none)
      else
        match convert? with
        | Option.none => .error .typeError
        | some convert =>
            match List.lookup argName convert with
            | some ce =>
                match convFunc ext ce argValue with
                | .ok v => .ok (v, Option.none)
                | .error e => .ok (argValue, some e)
            | Option.none => .ok (argValue, Option.none)

/-- The parameter loop over possibly missing tables. -/
def resolveArgsE (ext : Ext) (mapping? : Option (List (String × String)))
    (convert? : Option (List (String × ConvEntry)))
    (dflt? : Option (List (String × DefaultEntry)))
    (rd : List (String × PyVal)) : List String → Except PyErr ArgsResult
  | [] => .ok ⟨[], []⟩
  | an :: rest =>
      match resolveOneE ext mapping? convert? dflt? rd an with
      | .error e => .error e
      | .ok pr =>
          match resolveArgsE ext mapping? convert? dflt? rd rest with
          | .error e => .error e
          | .ok r =>
              .ok ⟨pr.1 :: r.argValues,
                   match pr.2 with
                   | some e => (an, e) :: r.convertErrors
                   | Option.none => r.convertErrors⟩

/-- A registered view function, identified opaquely, together with its
declared formal parameter names in declaration order (the result of the
getargspec reflection in core.py line 427). -/
structure Handler where
  hid : Nat
  argNames : List String

/-- The registration state of a Flex instance: the four per-intent
tables and the optional default intent handler (core.py lines 65-70,
176-179, 191). -/
structure FlexState where
  intentViewFuncs : List (String × Handler)
  intentConverts : List (String × List (String × ConvEntry))
  intentDefaults : List (String × List (String × DefaultEntry))
  intentMappings : List (String × List (String × String))
  defaultIntentViewFunc : Option Handler

/-- The current intent: its name and its slots value (the slots field of
the wrapped payload; None when absent). -/
structure Intent where
  name : String
  slots : PyVal

/-- Model of Flex._map_params_to_view_args (core.py lines 433-470): the
three tables are fetched with dict .get (None when the view name is
unregistered), request_data is built from the slots, then each declared
parameter is resolved in order. -/
def mapParamsToViewArgs (ext : Ext) (flex : FlexState) (viewName : String)
    (argNames : List String) (slots : PyVal) : Except PyErr ArgsResult :=
  let convert? := List.lookup viewName flex.intentConverts
  let default? := List.lookup viewName flex.intentDefaults
  let mapping? := List.lookup viewName flex.intentMappings
  match buildRequestData ext slots with
  | .error e => .error e
  | .ok rd => resolveArgsE ext mapping? convert? default? rd argNames

/-- Invoking a selected view function: its arguments are resolved and
the call is modelled as the pair of the handler identity and the
positional argument list (the partial application of core.py line 431). -/
def runView (ext : Ext) (flex : FlexState) (intent : Intent) (vf : Handler) :
    Except PyErr (Nat × List PyVal) :=
  match mapParamsToViewArgs ext flex intent.name vf.argNames intent.slots with
  | .error e => .error e
  | .ok r => .ok (vf.hid, r.argValues)

/-- Model of Flex._map_intent_to_view_func (core.py lines 418-431):
select the registered handler for the intent name, else the default
handler, else raise NotImplementedError; then resolve the arguments and
return the ready-to-call invocation. -/
def mapIntentToViewFunc (ext : Ext) (flex : FlexState) (intent : Intent) :
    Except PyErr (Nat × List PyVal) :=
  match List.lookup intent.name flex.intentViewFuncs with
  | some vf => runView ext flex intent vf
  | Option.none =>
      match flex.defaultIntentViewFunc with
      | some vf => runView ext flex intent vf
      | Option.none => .error (.notImplementedError intent.name)

/-- A JSON value of the response envelope built in models.py. -/
inductive JVal where
  | jnull
  | jbool (b : Bool)
  | jnum (n : Int)
  | jstr (s : String)
  | jarr (items : List JVal)
  | jobj (entries : List (String × JVal))

/-- Python dict assignment on an association list: an existing key keeps
its position and gets the new value; a new key is appended at the end,
exactly the insertion-order semantics of a Python dict. -/
def dictSet : List (String × JVal) → String → JVal → List (String × JVal)
  | [], k, v => [(k, v)]
  | (k1, v1) :: rest, k, v =>
      if k1 = k then (k1, v) :: rest else (k1, v1) :: dictSet rest k v

/-- Outcome of xml.etree.ElementTree.fromstring on the message string,
abstracted: a successful parse with the given root tag, or one of the
two exception kinds the except clause of models.py line 137 catches. -/
inductive XmlResult where
  | parsed (rootTag : String)
  | parseError
  | unicodeEncodeError
deriving DecidableEq, Repr

/-- Model of the message classifier (models.py lines 132-139): if the
string parses and the root tag is speak, the message dict is SSML with
the original string as content; on a parse error, an encoding error, or
any other root tag, it is PlainText with the original string, and no
exception escapes. -/
def message_dict (parse : String → XmlResult) (message : String) : JVal :=
  match parse message with
  | .parsed tag =>
      if tag = "speak" then
        .jobj [("contentType", .jstr "SSML"), ("content", .jstr message)]
      else
        .jobj [("contentType", .jstr "PlainText"), ("content", .jstr message)]
  | _ => .jobj [("contentType", .jstr "PlainText"), ("content", .jstr message)]

/-- The envelope created by the base response constructor (models.py
lines 46-52): a dict holding only dialogAction with the action type. -/
def initResponse (action : String) : List (String × JVal) :=
  [("dialogAction", .jobj [("type", .jstr action)])]

/-- Assignment to a field of the dialogAction sub-dict, as done by the
variant constructors and by the message mutator; None models the
KeyError or TypeError Python would raise when dialogAction is missing or
not a dict (impossible on states the constructors build). -/
def setDialogActionField (resp : List (String × JVal)) (key : String)
    (v : JVal) : Option (List (String × JVal)) :=
  match List.lookup "dialogAction" resp with
  | some (.jobj da) => some (dictSet resp "dialogAction" (.jobj (dictSet da key v)))
  | _ => Option.none

/-- The close variant (models.py lines 95-99): base envelope for the
Close action, then dialogAction.fulfillmentState is assigned. -/
def close_ (fulfilled : Bool) : List (String × JVal) :=
  [("dialogAction",
    .jobj [("type", .jstr "Close"),
           ("fulfillmentState", .jstr (if fulfilled then "Fulfilled" else "Failed"))])]

/-- The message mutator (models.py lines 54-56): classify the string and
assign the result to dialogAction.message, returning the updated
response for chaining. -/
def respMessage (parse : String → XmlResult) (resp : List (String × JVal))
    (m : String) : Option (List (String × JVal)) :=
  setDialogActionField resp "message" (message_dict parse m)

/-- The fixed envelope metadata the first response_card call installs
(models.py lines 59-64), with an empty attachment list. -/
def emptyResponseCard : JVal :=
  .jobj [("version", .jnum 1),
         ("contentType", .jstr "application/vnd.amazonaws.card.generic"),
         ("genericAttachments", .jarr [])]

/-- One attachment dict (models.py lines 66-81): only the supplied
fields are present, in the fixed order the code assigns them. -/
def buildAttachment (title subtitle imageUrl attachmentUrl buttons : Option JVal) :
    JVal :=
  .jobj ((match title with | some t => [("title", t)] | Option.none => []) ++
         (match subtitle with | some s => [("subTitle", s)] | Option.none => []) ++
         (match imageUrl with | some u => [("imageUrl", u)] | Option.none => []) ++
         (match attachmentUrl with | some u => [("attachmentLinkUrl", u)] | Option.none => []) ++
         (match buttons with | some b => [("buttons", b)] | Option.none => []))

/-- The response_card mutator (models.py lines 58-84): on first use it
installs the responseCard dict at the top level of the response
envelope (a sibling of dialogAction, not inside it), then appends one
attachment to responseCard.genericAttachments.  None models the raise
on malformed states that the builders never produce. -/
def response_card (resp : List (String × JVal))
    (title subtitle imageUrl attachmentUrl buttons : Option JVal) :
    Option (List (String × JVal)) :=
  let resp1 : List (String × JVal) :=
    match List.lookup "responseCard" resp with
    | Option.none => dictSet resp "responseCard" emptyResponseCard
    | some _ => resp
  match List.lookup "responseCard" resp1 with
  | some (.jobj rc) =>
      match List.lookup "genericAttachments" rc with
      | some (.jarr atts) =>
          some (dictSet resp1 "responseCard"
            (.jobj (dictSet rc "genericAttachments"
              (.jarr (atts ++ [buildAttachment title subtitle imageUrl attachmentUrl buttons])))))
      | _ => Option.none
  | _ => Option.none

/-- Rendering (models.py lines 86-92): sessionAttributes is assigned at
the top level of the envelope from the ambient session mapping, and the
whole envelope is serialized; the model returns the final envelope
object. -/
def render_response (resp : List (String × JVal))
    (session : List (String × JVal)) : List (String × JVal) :=
  dictSet resp "sessionAttributes" (.jobj session)

/-- A concrete external-behaviour instance used by concrete evaluations:
builtin converters that always raise TypeError and an ISO oracle that
accepts every string. -/
def extW : Ext :=
  ⟨fun _ => Except.error .typeError, fun _ => Except.error .typeError,
   fun _ => Except.error .typeError, fun _ => true⟩

/-- A concrete user converter that always raises. -/
def failConv : PyVal → Except PyErr PyVal :=
  fun _ => Except.error (.custom "boom")

/-- A concrete zero-argument callable default. -/
def nowDefault : Unit → PyVal :=
  fun _ => .str "now"

/-- A concrete XML-parse behaviour: every string fails to parse. -/
def parseW : String → XmlResult :=
  fun _ => XmlResult.parseError

/-! Helper lemmas about the dispatcher. -/

/-- The element a valid index selects is a member of the list. -/
theorem getD_mem_of_lt (l : List String) (i : Nat) (hi : i < l.length) :
    l.getD i "" ∈ l := by
  induction l generalizing i with
  | nil => simp at hi
  | cons a rest ih =>
      cases i with
      | zero => simp
      | succ n =>
          rw [List.getD_cons_succ]
          exact List.mem_cons_of_mem _ (ih n (Nat.lt_of_succ_lt_succ hi))

/-- With all three registration tables present (the registered-intent
case) a single parameter resolution never raises and agrees with the
pure loop body. -/
theorem resolveOneE_registered (ext : Ext) (mapping : List (String × String))
    (convert : List (String × ConvEntry)) (dflt : List (String × DefaultEntry))
    (rd : List (String × PyVal)) (an : String) :
    resolveOneE ext (some mapping) (some convert) (some dflt) rd an =
      .ok (resolveOneP ext mapping convert dflt rd an) := by
  simp only [resolveOneE, resolveOneP]
  split
  · split <;> rfl
  · split
    · split <;> rfl
    · rfl

/-- With all three registration tables present the parameter loop never
raises and agrees with the pure loop. -/
theorem resolveArgsE_registered (ext : Ext) (mapping : List (String × String))
    (convert : List (String × ConvEntry)) (dflt : List (String × DefaultEntry))
    (rd : List (String × PyVal)) (ans : List String) :
    resolveArgsE ext (some mapping) (some convert) (some dflt) rd ans =
      .ok (resolveArgsP ext mapping convert dflt rd ans) := by
  induction ans with
  | nil => rfl
  | cons an rest ih =>
      simp only [resolveArgsE, resolveArgsP, resolveOneE_registered, ih]

/-- For a view name whose three tables are registered and whose slot
dict builds without raising, the argument mapper returns exactly the
pure loop result. -/
theorem mapParams_registered (ext : Ext) (flex : FlexState) (vn : String)
    (argNames : List String) (slots : PyVal)
    (mapping : List (String × String)) (convert : List (String × ConvEntry))
    (dflt : List (String × DefaultEntry)) (rd : List (String × PyVal))
    (hm : List.lookup vn flex.intentMappings = some mapping)
    (hc : List.lookup vn flex.intentConverts = some convert)
    (hd : List.lookup vn flex.intentDefaults = some dflt)
    (hrd : buildRequestData ext slots = .ok rd) :
    mapParamsToViewArgs ext flex vn argNames slots =
      .ok (resolveArgsP ext mapping convert dflt rd argNames) := by
  simp only [mapParamsToViewArgs, hm, hc, hd, hrd, resolveArgsE_registered]

/-- The pure loop produces one positional argument per declared
parameter. -/
theorem resolveArgsP_length (ext : Ext) (mapping : List (String × String))
    (convert : List (String × ConvEntry)) (dflt : List (String × DefaultEntry))
    (rd : List (String × PyVal)) (ans : List String) :
    (resolveArgsP ext mapping convert dflt rd ans).argValues.length = ans.length := by
  induction ans with
  | nil => rfl
  | cons an rest ih =>
      simp only [resolveArgsP]
      cases h : (resolveOneP ext mapping convert dflt rd an).2 <;>
        simp only [List.length_cons, ih]

/-- The positional argument at index i is the loop-body value of the
parameter declared at index i. -/
theorem resolveArgsP_getD (ext : Ext) (mapping : List (String × String))
    (convert : List (String × ConvEntry)) (dflt : List (String × DefaultEntry))
    (rd : List (String × PyVal)) (ans : List String) (i : Nat)
    (hi : i < ans.length) :
    (resolveArgsP ext mapping convert dflt rd ans).argValues.getD i .pynone =
      (resolveOneP ext mapping convert dflt rd (ans.getD i "")).1 := by
  induction ans generalizing i with
  | nil => simp at hi
  | cons an rest ih =>
      have hval : (resolveArgsP ext mapping convert dflt rd (an :: rest)).argValues =
          (resolveOneP ext mapping convert dflt rd an).1 ::
            (resolveArgsP ext mapping convert dflt rd rest).argValues := by
        simp only [resolveArgsP]
      cases i with
      | zero => rw [hval, List.getD_cons_zero, List.getD_cons_zero]
      | succ n =>
          have hn : n < rest.length := Nat.lt_of_succ_lt_succ hi
          rw [hval, List.getD_cons_succ, List.getD_cons_succ]
          exact ih n hn

/-- A parameter whose loop body records a conversion error contributes
that entry to the conversion-error mapping. -/
theorem resolveArgsP_err_mem (ext : Ext) (mapping : List (String × String))
    (convert : List (String × ConvEntry)) (dflt : List (String × DefaultEntry))
    (rd : List (String × PyVal)) (ans : List String) (p : String) (e : PyErr)
    (hp : p ∈ ans)
    (he : (resolveOneP ext mapping convert dflt rd p).2 = some e) :
    (p, e) ∈ (resolveArgsP ext mapping convert dflt rd ans).convertErrors := by
  induction ans with
  | nil => simp at hp
  | cons an rest ih =>
      rcases List.mem_cons.mp hp with h | h
      · subst h
        simp only [resolveArgsP, he]
        exact List.mem_cons_self _ _
      · simp only [resolveArgsP]
        cases hcase : (resolveOneP ext mapping convert dflt rd an).2 with
        | none => exact ih h
        | some e1 => exact List.mem_cons_of_mem _ (ih h)

/-- A parameter whose loop body records no conversion error has no entry
in the conversion-error mapping. -/
theorem resolveArgsP_err_lookup_none (ext : Ext)
    (mapping : List (String × String)) (convert : List (String × ConvEntry))
    (dflt : List (String × DefaultEntry)) (rd : List (String × PyVal))
    (ans : List String) (p : String)
    (he : (resolveOneP ext mapping convert dflt rd p).2 = Option.none) :
    List.lookup p (resolveArgsP ext mapping convert dflt rd ans).convertErrors =
      Option.none := by
  induction ans with
  | nil => rfl
  | cons an rest ih =>
      simp only [resolveArgsP]
      cases hcase : (resolveOneP ext mapping convert dflt rd an).2 with
      | none => exact ih
      | some e1 =>
          have hne : p ≠ an := by
            intro hcon
            subst hcon
            rw [hcase] at he
            exact Option.noConfusion he
          simp only [List.lookup]
          rw [show (p == an) = false from beq_eq_false_iff_ne.mpr hne]
          exact ih

/-- Loop-body case: filled value with a converter that raises keeps the
raw value and records the error. -/
theorem resolveOneP_conv_fail (ext : Ext) (mapping : List (String × String))
    (convert : List (String × ConvEntry)) (dflt : List (String × DefaultEntry))
    (rd : List (String × PyVal)) (p v : String) (ce : ConvEntry) (e : PyErr)
    (hslot : List.lookup ((List.lookup p mapping).getD p) rd = some (.str v))
    (hne : v ≠ "")
    (hconv : List.lookup p convert = some ce)
    (hfail : convFunc ext ce (.str v) = .error e) :
    resolveOneP ext mapping convert dflt rd p = (.str v, some e) := by
  have hstr : isUnfilled (PyVal.str v) = false := by
    simp only [isUnfilled]
    exact beq_eq_false_iff_ne.mpr hne
  simp only [resolveOneP, hslot, Option.getD_some, hstr, Bool.false_eq_true,
    if_false, hconv, hfail]

/-- Loop-body case: filled value with no converter registered for the
parameter is passed through unchanged. -/
theorem resolveOneP_filled_noconv (ext : Ext) (mapping : List (String × String))
    (convert : List (String × ConvEntry)) (dflt : List (String × DefaultEntry))
    (rd : List (String × PyVal)) (p v : String)
    (hslot : List.lookup ((List.lookup p mapping).getD p) rd = some (.str v))
    (hne : v ≠ "")
    (hconv : List.lookup p convert = Option.none) :
    resolveOneP ext mapping convert dflt rd p = (.str v, Option.none) := by
  have hstr : isUnfilled (PyVal.str v) = false := by
    simp only [isUnfilled]
    exact beq_eq_false_iff_ne.mpr hne
  simp only [resolveOneP, hslot, Option.getD_some, hstr, Bool.false_eq_true,
    if_false, hconv]

/-- Loop-body case: unfilled value with a registered default resolves to
the default (a callable default is invoked now), with no conversion
error; the convert table is not consulted. -/
theorem resolveOneP_default (ext : Ext) (mapping : List (String × String))
    (convert : List (String × ConvEntry)) (dflt : List (String × DefaultEntry))
    (rd : List (String × PyVal)) (p : String) (de : DefaultEntry)
    (hunf : isUnfilled ((List.lookup ((List.lookup p mapping).getD p) rd).getD .pynone) = true)
    (hd : List.lookup p dflt = some de) :
    resolveOneP ext mapping convert dflt rd p = (defaultResultOf de, Option.none) := by
  simp only [resolveOneP, hunf, if_true, hd]

/-- Loop-body case: unfilled value with no registered default passes the
raw unfilled sentinel through, with no conversion error; the convert
table is not consulted. -/
theorem resolveOneP_unfilled_nodefault (ext : Ext)
    (mapping : List (String × String)) (convert : List (String × ConvEntry))
    (dflt : List (String × DefaultEntry)) (rd : List (String × PyVal))
    (p : String)
    (hunf : isUnfilled ((List.lookup ((List.lookup p mapping).getD p) rd).getD .pynone) = true)
    (hd : List.lookup p dflt = Option.none) :
    resolveOneP ext mapping convert dflt rd p =
      ((List.lookup ((List.lookup p mapping).getD p) rd).getD .pynone, Option.none) := by
  simp only [resolveOneP, hunf, if_true, hd]

/-! Helper lemmas about Python dict assignment on the response side. -/

/-- Assigning one key leaves every other key unchanged. -/
theorem lookup_dictSet_ne (l : List (String × JVal)) (k k1 : String) (v : JVal)
    (h : k1 ≠ k) : List.lookup k1 (dictSet l k v) = List.lookup k1 l := by
  induction l with
  | nil =>
      simp only [dictSet, List.lookup, beq_eq_false_iff_ne.mpr h]
  | cons kv rest ih =>
      obtain ⟨k2, v2⟩ := kv
      simp only [dictSet]
      by_cases hk : k2 = k
      · rw [if_pos hk]
        subst hk
        simp only [List.lookup, beq_eq_false_iff_ne.mpr h]
      · rw [if_neg hk]
        by_cases hk1 : k1 = k2
        · subst hk1
          simp [List.lookup]
        · simp only [List.lookup, beq_eq_false_iff_ne.mpr hk1, ih]

/-- Assigning a key makes it read back the assigned value. -/
theorem lookup_dictSet_eq (l : List (String × JVal)) (k : String) (v : JVal) :
    List.lookup k (dictSet l k v) = some v := by
  induction l with
  | nil => simp [dictSet, List.lookup]
  | cons kv rest ih =>
      obtain ⟨k2, v2⟩ := kv
      simp only [dictSet]
      by_cases hk : k2 = k
      · rw [if_pos hk]
        subst hk
        simp [List.lookup]
      · rw [if_neg hk]
        simp only [List.lookup, beq_eq_false_iff_ne.mpr (fun hcon => hk hcon.symm), ih]

/-- Assigning the same key twice keeps only the second value. -/
theorem dictSet_dictSet_same (l : List (String × JVal)) (k : String) (v w : JVal) :
    dictSet (dictSet l k v) k w = dictSet l k w := by
  induction l with
  | nil => simp [dictSet]
  | cons kv rest ih =>
      obtain ⟨k2, v2⟩ := kv
      simp only [dictSet]
      by_cases hk : k2 = k
      · rw [if_pos hk]
        simp [dictSet, hk]
      · rw [if_neg hk]
        simp [dictSet, hk, ih]

/-! Helper lemmas about the Field wrapper. -/

mutual
/-- Re-wrapping a wrapped value changes nothing. -/
theorem wrapVal_idem (v : PyVal) : wrapVal (wrapVal v) = wrapVal v := by
  cases v with
  | dict isField es => simp only [wrapVal, wrapEntries_idem es]
  | pynone => rfl
  | str s => rfl
  | int n => rfl
  | boolean b => rfl
  | datetime s => rfl
  | pyobj t => rfl

/-- Re-wrapping wrapped entries changes nothing. -/
theorem wrapEntries_idem (es : PyEntries) : wrapEntries (wrapEntries es) = wrapEntries es := by
  cases es with
  | pnil => rfl
  | pcons k v rest => simp only [wrapEntries, wrapVal_idem v, wrapEntries_idem rest]
end

mutual
/-- After wrapping, every reachable nested mapping value is a wrapped
Field. -/
theorem allWrapped_wrapVal (v : PyVal) : allWrapped (wrapVal v) = true := by
  cases v with
  | dict isField es =>
      simp only [wrapVal, allWrapped, Bool.true_and, entriesAllWrapped_wrapEntries es]
  | pynone => rfl
  | str s => rfl
  | int n => rfl
  | boolean b => rfl
  | datetime s => rfl
  | pyobj t => rfl

/-- After wrapping, every entry value satisfies allWrapped. -/
theorem entriesAllWrapped_wrapEntries (es : PyEntries) :
    entriesAllWrapped (wrapEntries es) = true := by
  cases es with
  | pnil => rfl
  | pcons k v rest =>
      simp only [wrapEntries, entriesAllWrapped, allWrapped_wrapVal v,
        entriesAllWrapped_wrapEntries rest, Bool.and_self]
end

/-! The claims. -/

/-- Claim C1: for a registered intent with a parameter p carrying a
registered converter, and a non-empty resolved slot value v for p, if
applying the converter to v raises then after dispatch the
conversion-error mapping contains an entry for p holding the raised
error, the positional argument bound to p equals the raw unconverted
value v, and the remaining parameters are still resolved: the full
argument list is produced without aborting. -/
theorem C1_conversion_failure_isolated
    (ext : Ext) (flex : FlexState) (vn : String) (argNames : List String)
    (slots : PyVal) (mapping : List (String × String))
    (convert : List (String × ConvEntry)) (dflt : List (String × DefaultEntry))
    (rd : List (String × PyVal)) (p v : String) (ce : ConvEntry) (e : PyErr)
    (i : Nat)
    (hm : List.lookup vn flex.intentMappings = some mapping)
    (hc : List.lookup vn flex.intentConverts = some convert)
    (hd : List.lookup vn flex.intentDefaults = some dflt)
    (hrd : buildRequestData ext slots = .ok rd)
    (hslot : List.lookup ((List.lookup p mapping).getD p) rd = some (.str v))
    (hne : v ≠ "")
    (hconv : List.lookup p convert = some ce)
    (hfail : convFunc ext ce (.str v) = .error e)
    (hi : i < argNames.length)
    (hp : argNames.getD i "" = p) :
    mapParamsToViewArgs ext flex vn argNames slots =
      .ok (resolveArgsP ext mapping convert dflt rd argNames) ∧
    (resolveArgsP ext mapping convert dflt rd argNames).argValues.length =
      argNames.length ∧
    (resolveArgsP ext mapping convert dflt rd argNames).argValues.getD i .pynone =
      .str v ∧
    (p, e) ∈ (resolveArgsP ext mapping convert dflt rd argNames).convertErrors := by
  refine ⟨mapParams_registered ext flex vn argNames slots mapping convert dflt rd
    hm hc hd hrd, resolveArgsP_length ext mapping convert dflt rd argNames, ?_, ?_⟩
  · rw [resolveArgsP_getD ext mapping convert dflt rd argNames i hi, hp,
      resolveOneP_conv_fail ext mapping convert dflt rd p v ce e hslot hne hconv hfail]
  · refine resolveArgsP_err_mem ext mapping convert dflt rd argNames p e ?_ ?_
    · exact hp ▸ getD_mem_of_lt argNames i hi
    · rw [resolveOneP_conv_fail ext mapping convert dflt rd p v ce e hslot hne hconv hfail]

/-- Witness for C1 at a concrete registration: intent Weather with
parameters city and units, city mapped to slot City whose value SF is
converted by an always-raising converter; the error is recorded, the
argument stays SF, and both arguments are produced. -/
theorem C1_witness :
    mapParamsToViewArgs extW
        ⟨[("Weather", ⟨1, ["city", "units"]⟩)],
         [("Weather", [("city", .func failConv)])],
         [("Weather", [])],
         [("Weather", [("city", "City")])], Option.none⟩
        "Weather" ["city", "units"]
        (.dict true (.pcons "City" (.str "SF") (.pcons "units" (.str "C") .pnil))) =
      .ok (resolveArgsP extW [("city", "City")] [("city", .func failConv)] []
        [("City", .str "SF"), ("units", .str "C")] ["city", "units"]) ∧
    (resolveArgsP extW [("city", "City")] [("city", .func failConv)] []
      [("City", .str "SF"), ("units", .str "C")] ["city", "units"]).argValues.length =
      (["city", "units"] : List String).length ∧
    (resolveArgsP extW [("city", "City")] [("city", .func failConv)] []
      [("City", .str "SF"), ("units", .str "C")] ["city", "units"]).argValues.getD 0 .pynone =
      .str "SF" ∧
    ("city", PyErr.custom "boom") ∈ (resolveArgsP extW [("city", "City")]
      [("city", .func failConv)] [] [("City", .str "SF"), ("units", .str "C")]
      ["city", "units"]).convertErrors :=
  C1_conversion_failure_isolated extW
    ⟨[("Weather", ⟨1, ["city", "units"]⟩)],
     [("Weather", [("city", .func failConv)])],
     [("Weather", [])],
     [("Weather", [("city", "City")])], Option.none⟩
    "Weather" ["city", "units"]
    (.dict true (.pcons "City" (.str "SF") (.pcons "units" (.str "C") .pnil)))
    [("city", "City")] [("city", .func failConv)] []
    [("City", .str "SF"), ("units", .str "C")] "city" "SF" (.func failConv)
    (.custom "boom") 0 rfl rfl rfl rfl rfl (by decide) rfl rfl (by decide) rfl

/-- Claim C2: a parameter whose resolved slot value is unfilled and
which has a registered default resolves to the literal default when the
default is not callable, and to the result of invoking the default at
dispatch time when it is a zero-argument callable (the registry stores
the callable itself, unapplied). -/
theorem C2_default_resolution
    (ext : Ext) (flex : FlexState) (vn : String) (argNames : List String)
    (slots : PyVal) (mapping : List (String × String))
    (convert : List (String × ConvEntry)) (dflt : List (String × DefaultEntry))
    (rd : List (String × PyVal)) (p q : String) (dv : PyVal) (df : Unit → PyVal)
    (i j : Nat)
    (hm : List.lookup vn flex.intentMappings = some mapping)
    (hc : List.lookup vn flex.intentConverts = some convert)
    (hd : List.lookup vn flex.intentDefaults = some dflt)
    (hrd : buildRequestData ext slots = .ok rd)
    (hup : isUnfilled ((List.lookup ((List.lookup p mapping).getD p) rd).getD .pynone) = true)
    (hdp : List.lookup p dflt = some (.value dv))
    (huq : isUnfilled ((List.lookup ((List.lookup q mapping).getD q) rd).getD .pynone) = true)
    (hdq : List.lookup q dflt = some (.callable df))
    (hi : i < argNames.length) (hp : argNames.getD i "" = p)
    (hj : j < argNames.length) (hq : argNames.getD j "" = q) :
    mapParamsToViewArgs ext flex vn argNames slots =
      .ok (resolveArgsP ext mapping convert dflt rd argNames) ∧
    (resolveArgsP ext mapping convert dflt rd argNames).argValues.getD i .pynone = dv ∧
    (resolveArgsP ext mapping convert dflt rd argNames).argValues.getD j .pynone = df () := by
  refine ⟨mapParams_registered ext flex vn argNames slots mapping convert dflt rd
    hm hc hd hrd, ?_, ?_⟩
  · rw [resolveArgsP_getD ext mapping convert dflt rd argNames i hi, hp,
      resolveOneP_default ext mapping convert dflt rd p (.value dv) hup hdp]
    rfl
  · rw [resolveArgsP_getD ext mapping convert dflt rd argNames j hj, hq,
      resolveOneP_default ext mapping convert dflt rd q (.callable df) huq hdq]
    rfl

/-- Witness for C2: intent Hello with an empty greeting slot defaulting
to the literal hi and an absent stamp slot defaulting to a callable that
is invoked at dispatch time. -/
theorem C2_witness :
    mapParamsToViewArgs extW
        ⟨[("Hello", ⟨2, ["greeting", "stamp"]⟩)],
         [("Hello", [])],
         [("Hello", [("greeting", .value (.str "hi")), ("stamp", .callable nowDefault)])],
         [("Hello", [])], Option.none⟩
        "Hello" ["greeting", "stamp"]
        (.dict true (.pcons "greeting" (.str "") .pnil)) =
      .ok (resolveArgsP extW [] []
        [("greeting", .value (.str "hi")), ("stamp", .callable nowDefault)]
        [("greeting", .str "")] ["greeting", "stamp"]) ∧
    (resolveArgsP extW [] []
      [("greeting", .value (.str "hi")), ("stamp", .callable nowDefault)]
      [("greeting", .str "")] ["greeting", "stamp"]).argValues.getD 0 .pynone =
      .str "hi" ∧
    (resolveArgsP extW [] []
      [("greeting", .value (.str "hi")), ("stamp", .callable nowDefault)]
      [("greeting", .str "")] ["greeting", "stamp"]).argValues.getD 1 .pynone =
      nowDefault () :=
  C2_default_resolution extW
    ⟨[("Hello", ⟨2, ["greeting", "stamp"]⟩)],
     [("Hello", [])],
     [("Hello", [("greeting", .value (.str "hi")), ("stamp", .callable nowDefault)])],
     [("Hello", [])], Option.none⟩
    "Hello" ["greeting", "stamp"]
    (.dict true (.pcons "greeting" (.str "") .pnil))
    [] [] [("greeting", .value (.str "hi")), ("stamp", .callable nowDefault)]
    [("greeting", .str "")] "greeting" "stamp" (.str "hi") nowDefault 0 1
    rfl rfl rfl rfl rfl rfl rfl rfl (by decide) rfl (by decide) rfl

/-- Claim C3: a parameter p registered with an explicit name mapping to
slot s receives the non-empty value of slot s regardless of whether a
slot named p also exists in the request data (the rd binder is
unconstrained at p), while a parameter q with no mapping entry uses its
own name verbatim as the slot key; both stated for parameters without a
registered converter, since a converter would transform the bound value. -/
theorem C3_mapping_precedence
    (ext : Ext) (flex : FlexState) (vn : String) (argNames : List String)
    (slots : PyVal) (mapping : List (String × String))
    (convert : List (String × ConvEntry)) (dflt : List (String × DefaultEntry))
    (rd : List (String × PyVal)) (p s v q w : String) (i j : Nat)
    (hm : List.lookup vn flex.intentMappings = some mapping)
    (hc : List.lookup vn flex.intentConverts = some convert)
    (hd : List.lookup vn flex.intentDefaults = some dflt)
    (hrd : buildRequestData ext slots = .ok rd)
    (hmap : List.lookup p mapping = some s)
    (hs : List.lookup s rd = some (.str v))
    (hv : v ≠ "")
    (hnc : List.lookup p convert = Option.none)
    (hqm : List.lookup q mapping = Option.none)
    (hqs : List.lookup q rd = some (.str w))
    (hw : w ≠ "")
    (hqc : List.lookup q convert = Option.none)
    (hi : i < argNames.length) (hp : argNames.getD i "" = p)
    (hj : j < argNames.length) (hq : argNames.getD j "" = q) :
    mapParamsToViewArgs ext flex vn argNames slots =
      .ok (resolveArgsP ext mapping convert dflt rd argNames) ∧
    (resolveArgsP ext mapping convert dflt rd argNames).argValues.getD i .pynone =
      .str v ∧
    (resolveArgsP ext mapping convert dflt rd argNames).argValues.getD j .pynone =
      .str w := by
  have hkey : (List.lookup p mapping).getD p = s := by rw [hmap]; rfl
  have hqkey : (List.lookup q mapping).getD q = q := by rw [hqm]; rfl
  refine ⟨mapParams_registered ext flex vn argNames slots mapping convert dflt rd
    hm hc hd hrd, ?_, ?_⟩
  · rw [resolveArgsP_getD ext mapping convert dflt rd argNames i hi, hp,
      resolveOneP_filled_noconv ext mapping convert dflt rd p v (hkey ▸ hs) hv hnc]
  · have hqslot : List.lookup ((List.lookup q mapping).getD q) rd = some (.str w) := by
      rw [hqkey]; exact hqs
    rw [resolveArgsP_getD ext mapping convert dflt rd argNames j hj, hq,
      resolveOneP_filled_noconv ext mapping convert dflt rd q w hqslot hw hqc]

/-- Witness for C3: parameter city is mapped to slot City and receives
its value SF even though a decoy slot named city with a different value
is present; parameter units has no mapping entry and reads the slot
named units verbatim. -/
theorem C3_witness :
    mapParamsToViewArgs extW
        ⟨[("Weather3", ⟨4, ["city", "units"]⟩)],
         [("Weather3", [])],
         [("Weather3", [])],
         [("Weather3", [("city", "City")])], Option.none⟩
        "Weather3" ["city", "units"]
        (.dict true (.pcons "City" (.str "SF")
          (.pcons "city" (.str "WRONG") (.pcons "units" (.str "C") .pnil)))) =
      .ok (resolveArgsP extW [("city", "City")] [] []
        [("City", .str "SF"), ("city", .str "WRONG"), ("units", .str "C")]
        ["city", "units"]) ∧
    (resolveArgsP extW [("city", "City")] [] []
      [("City", .str "SF"), ("city", .str "WRONG"), ("units", .str "C")]
      ["city", "units"]).argValues.getD 0 .pynone = .str "SF" ∧
    (resolveArgsP extW [("city", "City")] [] []
      [("City", .str "SF"), ("city", .str "WRONG"), ("units", .str "C")]
      ["city", "units"]).argValues.getD 1 .pynone = .str "C" :=
  C3_mapping_precedence extW
    ⟨[("Weather3", ⟨4, ["city", "units"]⟩)],
     [("Weather3", [])],
     [("Weather3", [])],
     [("Weather3", [("city", "City")])], Option.none⟩
    "Weather3" ["city", "units"]
    (.dict true (.pcons "City" (.str "SF")
      (.pcons "city" (.str "WRONG") (.pcons "units" (.str "C") .pnil))))
    [("city", "City")] [] []
    [("City", .str "SF"), ("city", .str "WRONG"), ("units", .str "C")]
    "city" "City" "SF" "units" "C" 0 1
    rfl rfl rfl rfl rfl rfl (by decide) rfl rfl rfl (by decide) rfl
    (by decide) rfl (by decide) rfl

/-- Claim C9: a parameter that resolves as unfilled and has no
registered default passes the raw unfilled sentinel through unchanged
(None for an absent or null slot, the empty string for an empty slot
value) with no conversion-error entry, for an arbitrary convert table;
and a registered converter is not applied to a default value either: an
unfilled parameter with both a converter and a default resolves to the
default result with no conversion-error entry. -/
theorem C9_unfilled_passthrough
    (ext : Ext) (flex : FlexState) (vn : String) (argNames : List String)
    (slots : PyVal) (mapping : List (String × String))
    (convert : List (String × ConvEntry)) (dflt : List (String × DefaultEntry))
    (rd : List (String × PyVal)) (p : String) (uv : PyVal) (q : String)
    (dq : DefaultEntry) (ceq : ConvEntry) (i j : Nat)
    (hm : List.lookup vn flex.intentMappings = some mapping)
    (hc : List.lookup vn flex.intentConverts = some convert)
    (hd : List.lookup vn flex.intentDefaults = some dflt)
    (hrd : buildRequestData ext slots = .ok rd)
    (hkey : (List.lookup ((List.lookup p mapping).getD p) rd).getD .pynone = uv)
    (hunf : isUnfilled uv = true)
    (hnd : List.lookup p dflt = Option.none)
    (hqk : isUnfilled ((List.lookup ((List.lookup q mapping).getD q) rd).getD .pynone) = true)
    (hdq : List.lookup q dflt = some dq)
    (_hqc : List.lookup q convert = some ceq)
    (hi : i < argNames.length) (hp : argNames.getD i "" = p)
    (hj : j < argNames.length) (hq : argNames.getD j "" = q) :
    mapParamsToViewArgs ext flex vn argNames slots =
      .ok (resolveArgsP ext mapping convert dflt rd argNames) ∧
    (resolveArgsP ext mapping convert dflt rd argNames).argValues.getD i .pynone = uv ∧
    List.lookup p (resolveArgsP ext mapping convert dflt rd argNames).convertErrors =
      Option.none ∧
    (resolveArgsP ext mapping convert dflt rd argNames).argValues.getD j .pynone =
      defaultResultOf dq ∧
    List.lookup q (resolveArgsP ext mapping convert dflt rd argNames).convertErrors =
      Option.none := by
  have hone : resolveOneP ext mapping convert dflt rd p = (uv, Option.none) := by
    rw [resolveOneP_unfilled_nodefault ext mapping convert dflt rd p (hkey ▸ hunf) hnd, hkey]
  have honeq : resolveOneP ext mapping convert dflt rd q =
      (defaultResultOf dq, Option.none) :=
    resolveOneP_default ext mapping convert dflt rd q dq hqk hdq
  refine ⟨mapParams_registered ext flex vn argNames slots mapping convert dflt rd
    hm hc hd hrd, ?_, ?_, ?_, ?_⟩
  · rw [resolveArgsP_getD ext mapping convert dflt rd argNames i hi, hp, hone]
  · exact resolveArgsP_err_lookup_none ext mapping convert dflt rd argNames p
      (by rw [hone])
  · rw [resolveArgsP_getD ext mapping convert dflt rd argNames j hj, hq, honeq]
  · exact resolveArgsP_err_lookup_none ext mapping convert dflt rd argNames q
      (by rw [honeq])

/-- Witness for C9: intent Pizza with a null size slot, no default for
size but an always-raising converter registered for it (the sentinel
None passes through with no error entry), and an absent topping slot
with both an always-raising converter and a literal default cheese (the
default is bound unconverted, with no error entry). -/
theorem C9_witness :
    mapParamsToViewArgs extW
        ⟨[("Pizza", ⟨3, ["size", "topping"]⟩)],
         [("Pizza", [("size", .func failConv), ("topping", .func failConv)])],
         [("Pizza", [("topping", .value (.str "cheese"))])],
         [("Pizza", [])], Option.none⟩
        "Pizza" ["size", "topping"]
        (.dict true (.pcons "size" .pynone .pnil)) =
      .ok (resolveArgsP extW []
        [("size", .func failConv), ("topping", .func failConv)]
        [("topping", .value (.str "cheese"))]
        [("size", .pynone)] ["size", "topping"]) ∧
    (resolveArgsP extW [] [("size", .func failConv), ("topping", .func failConv)]
      [("topping", .value (.str "cheese"))] [("size", .pynone)]
      ["size", "topping"]).argValues.getD 0 .pynone = .pynone ∧
    List.lookup "size" (resolveArgsP extW []
      [("size", .func failConv), ("topping", .func failConv)]
      [("topping", .value (.str "cheese"))] [("size", .pynone)]
      ["size", "topping"]).convertErrors = Option.none ∧
    (resolveArgsP extW [] [("size", .func failConv), ("topping", .func failConv)]
      [("topping", .value (.str "cheese"))] [("size", .pynone)]
      ["size", "topping"]).argValues.getD 1 .pynone =
      defaultResultOf (.value (.str "cheese")) ∧
    List.lookup "topping" (resolveArgsP extW []
      [("size", .func failConv), ("topping", .func failConv)]
      [("topping", .value (.str "cheese"))] [("size", .pynone)]
      ["size", "topping"]).convertErrors = Option.none :=
  C9_unfilled_passthrough extW
    ⟨[("Pizza", ⟨3, ["size", "topping"]⟩)],
     [("Pizza", [("size", .func failConv), ("topping", .func failConv)])],
     [("Pizza", [("topping", .value (.str "cheese"))])],
     [("Pizza", [])], Option.none⟩
    "Pizza" ["size", "topping"]
    (.dict true (.pcons "size" .pynone .pnil))
    [] [("size", .func failConv), ("topping", .func failConv)]
    [("topping", .value (.str "cheese"))]
    [("size", .pynone)] "size" .pynone "topping"
    (.value (.str "cheese")) (.func failConv) 0 1
    rfl rfl rfl rfl rfl rfl rfl rfl rfl rfl (by decide) rfl (by decide) rfl

/-- Claim C4, counterexample to the claim as stated: with no registered
intents, a registered default handler that declares one parameter, and
an intent named Foo with an empty slot dict, dispatch does not invoke
the default handler; it raises AttributeError, because the mapping table
fetched for the unregistered name Foo is None and the loop calls .get on
it.  So the clause (if the name is not registered but a default handler
is registered, the default handler is invoked instead) fails for default
handlers with parameters. -/
theorem C4_counterexample :
    mapIntentToViewFunc extW ⟨[], [], [], [], some ⟨0, ["x"]⟩⟩
      ⟨"Foo", .dict true .pnil⟩ = .error .attributeError := rfl

/-- Claim C4 as amended: a dispatch whose intent name is registered
invokes the registered handler (whenever its argument mapping
completes); if the name is not registered but a default handler is
registered, the default handler is invoked provided its argument
mapping completes, in particular whenever it declares no parameters
(with parameters it raises, because no registration tables exist under
the unregistered name); if neither exists, dispatch raises a
handler-not-found resolution error instead of returning a result. -/
theorem C4_handler_resolution
    (ext : Ext) (flex1 flex2 flex3 : FlexState) (int1 int2 int3 : Intent)
    (vf1 : Handler) (r1 : ArgsResult) (vf2 : Handler)
    (rd2 : List (String × PyVal))
    (h1a : List.lookup int1.name flex1.intentViewFuncs = some vf1)
    (h1b : mapParamsToViewArgs ext flex1 int1.name vf1.argNames int1.slots = .ok r1)
    (h2a : List.lookup int2.name flex2.intentViewFuncs = Option.none)
    (h2b : flex2.defaultIntentViewFunc = some vf2)
    (h2c : vf2.argNames = [])
    (h2d : buildRequestData ext int2.slots = .ok rd2)
    (h3a : List.lookup int3.name flex3.intentViewFuncs = Option.none)
    (h3b : flex3.defaultIntentViewFunc = Option.none) :
    mapIntentToViewFunc ext flex1 int1 = .ok (vf1.hid, r1.argValues) ∧
    mapIntentToViewFunc ext flex2 int2 = .ok (vf2.hid, []) ∧
    mapIntentToViewFunc ext flex3 int3 = .error (.notImplementedError int3.name) := by
  refine ⟨?_, ?_, ?_⟩
  · simp only [mapIntentToViewFunc, h1a, runView, h1b]
  · have hmap : mapParamsToViewArgs ext flex2 int2.name vf2.argNames int2.slots =
        .ok ⟨[], []⟩ := by
      rw [h2c]
      simp only [mapParamsToViewArgs, h2d, resolveArgsE]
    simp only [mapIntentToViewFunc, h2a, h2b, runView, hmap]
  · simp only [mapIntentToViewFunc, h3a, h3b]

/-- Witness for the amended C4 covering all three branches: a registered
intent Hi is dispatched to its own zero-parameter handler; an
unregistered name with a zero-parameter default handler is dispatched to
the default; an unregistered name with no default raises the
handler-not-found error. -/
theorem C4_witness :
    mapIntentToViewFunc extW
        ⟨[("Hi", ⟨7, []⟩)], [("Hi", [])], [("Hi", [])], [("Hi", [])], Option.none⟩
        ⟨"Hi", .pynone⟩ = .ok (7, []) ∧
    mapIntentToViewFunc extW ⟨[], [], [], [], some ⟨8, []⟩⟩
        ⟨"Unknown", .pynone⟩ = .ok (8, []) ∧
    mapIntentToViewFunc extW ⟨[], [], [], [], Option.none⟩
        ⟨"Ghost", .pynone⟩ = .error (.notImplementedError "Ghost") :=
  C4_handler_resolution extW
    ⟨[("Hi", ⟨7, []⟩)], [("Hi", [])], [("Hi", [])], [("Hi", [])], Option.none⟩
    ⟨[], [], [], [], some ⟨8, []⟩⟩ ⟨[], [], [], [], Option.none⟩
    ⟨"Hi", .pynone⟩ ⟨"Unknown", .pynone⟩ ⟨"Ghost", .pynone⟩
    ⟨7, []⟩ ⟨[], []⟩ ⟨8, []⟩ []
    rfl rfl rfl rfl rfl rfl rfl rfl

/-- Claim C5, evaluation at the failing input: a Close response carrying
one response card with title t, rendered with an empty ambient session.
The serialized envelope places responseCard at the TOP level, as a
sibling of dialogAction, and the dialogAction object holds only type and
fulfillmentState — contradicting the claim (and spec section 6), which
put responseCard inside dialogAction. -/
theorem C5_responseCard_placement :
    response_card (close_ true) (some (.jstr "t"))
        Option.none Option.none Option.none Option.none =
      some [("dialogAction",
              .jobj [("type", .jstr "Close"), ("fulfillmentState", .jstr "Fulfilled")]),
            ("responseCard",
              .jobj [("version", .jnum 1),
                     ("contentType", .jstr "application/vnd.amazonaws.card.generic"),
                     ("genericAttachments", .jarr [.jobj [("title", .jstr "t")]])])] ∧
    render_response [("dialogAction",
        .jobj [("type", .jstr "Close"), ("fulfillmentState", .jstr "Fulfilled")]),
      ("responseCard",
        .jobj [("version", .jnum 1),
               ("contentType", .jstr "application/vnd.amazonaws.card.generic"),
               ("genericAttachments", .jarr [.jobj [("title", .jstr "t")]])])] [] =
      [("dialogAction",
         .jobj [("type", .jstr "Close"), ("fulfillmentState", .jstr "Fulfilled")]),
       ("responseCard",
         .jobj [("version", .jnum 1),
                ("contentType", .jstr "application/vnd.amazonaws.card.generic"),
                ("genericAttachments", .jarr [.jobj [("title", .jstr "t")]])]),
       ("sessionAttributes", .jobj [])] :=
  ⟨rfl, rfl⟩

/-- Claim C6: the message classifier is total over every possible
behaviour of the external XML parser, so no parse or encoding failure
escapes; the stored content is always the original string, and the
contentType is SSML exactly when the string parses with root tag speak,
PlainText in every other case (parse failure, encoding failure, or a
different root tag). -/
theorem C6_message_classification (parse : String → XmlResult) (s : String) :
    message_dict parse s =
      .jobj [("contentType",
              .jstr (if parse s = .parsed "speak" then "SSML" else "PlainText")),
             ("content", .jstr s)] := by
  unfold message_dict
  cases h : parse s with
  | parsed tag =>
      by_cases htag : tag = "speak"
      · simp [htag]
      · simp only [if_pos, if_neg htag]
        rw [if_neg (by simp [htag])]
  | parseError => rw [if_neg (by simp)]
  | unicodeEncodeError => rw [if_neg (by simp)]

/-- Claim C7: wrapping a payload mapping is idempotent — re-wrapping the
Field built from entries es yields exactly the same structure, hence the
same accessible keys and values at every depth — and total: every
nested mapping value in the wrapped result is itself a wrapped Field. -/
theorem C7_wrapping_idempotent_total (es : PyEntries) :
    wrapVal (fieldInit es) = fieldInit es ∧ allWrapped (fieldInit es) = true := by
  constructor
  · simp only [fieldInit, wrapVal, wrapEntries_idem]
  · simp only [fieldInit, allWrapped, Bool.true_and, entriesAllWrapped_wrapEntries]

/-- Claim C8: on a Field, attribute access on a key whose name contains
the substring timestamp returns the stored string parsed as an ISO-8601
date-time when a valid string is stored, but raises when the stored
value is absent, while access on a non-timestamp key that is unset
returns the absent-value sentinel None without raising. -/
theorem C8_timestamp_access (isoOk : String → Bool) (es1 es2 es3 : PyEntries)
    (a1 a2 a3 s : String)
    (h1a : hasTimestampSub a1 = true) (h1b : fieldGet es1 a1 = Option.none)
    (h2a : hasTimestampSub a2 = true) (h2b : fieldGet es2 a2 = some (.str s))
    (h2c : isoOk s = true)
    (h3a : hasTimestampSub a3 = false) (h3b : fieldGet es3 a3 = Option.none) :
    fieldGetattr isoOk es1 a1 = .error .attributeError ∧
    fieldGetattr isoOk es2 a2 = .ok (.datetime s) ∧
    fieldGetattr isoOk es3 a3 = .ok .pynone := by
  refine ⟨?_, ?_, ?_⟩
  · simp only [fieldGetattr, h1a, if_true, fieldGetRaw, h1b, Option.getD_none,
      parse_datetime]
  · simp only [fieldGetattr, h2a, if_true, fieldGetRaw, h2b, Option.getD_some,
      parse_datetime, h2c]
  · simp only [fieldGetattr, h3a, Bool.false_eq_true, if_false, fieldGetRaw,
      h3b, Option.getD_none]

/-- Witness for C8: the key timestamp on an empty Field raises; the key
start_timestamp holding an ISO string parses to the date-time; the
non-timestamp key name on an empty Field reads back None. -/
theorem C8_witness :
    fieldGetattr (fun _ => true) .pnil "timestamp" = .error .attributeError ∧
    fieldGetattr (fun _ => true)
      (.pcons "start_timestamp" (.str "2019-01-01T12:00:00Z") .pnil)
      "start_timestamp" = .ok (.datetime "2019-01-01T12:00:00Z") ∧
    fieldGetattr (fun _ => true) .pnil "name" = .ok .pynone :=
  C8_timestamp_access (fun _ => true) .pnil
    (.pcons "start_timestamp" (.str "2019-01-01T12:00:00Z") .pnil) .pnil
    "timestamp" "start_timestamp" "name" "2019-01-01T12:00:00Z"
    rfl rfl rfl rfl rfl rfl rfl

/-- Claim C10: on any response whose envelope holds a dialogAction
object, calling message updates only the message field inside
dialogAction — every other top-level key of the envelope (such as
responseCard) and every other dialogAction field (such as type and the
variant fields) read back unchanged — the stored message is the
classification of the argument, the updated response is what the call
returns for chaining, and a second call replaces the first, yielding
exactly the state a single call with the last message would produce. -/
theorem C10_message_frame
    (parse : String → XmlResult) (resp da : List (String × JVal))
    (m m2 k1 k2 : String)
    (h : List.lookup "dialogAction" resp = some (.jobj da))
    (hk1 : k1 ≠ "dialogAction") (hk2 : k2 ≠ "message") :
    respMessage parse resp m =
      some (dictSet resp "dialogAction"
        (.jobj (dictSet da "message" (message_dict parse m)))) ∧
    List.lookup k1 (dictSet resp "dialogAction"
      (.jobj (dictSet da "message" (message_dict parse m)))) =
      List.lookup k1 resp ∧
    List.lookup k2 (dictSet da "message" (message_dict parse m)) =
      List.lookup k2 da ∧
    List.lookup "message" (dictSet da "message" (message_dict parse m)) =
      some (message_dict parse m) ∧
    (respMessage parse resp m).bind (fun r => respMessage parse r m2) =
      respMessage parse resp m2 := by
  have h1 : respMessage parse resp m = some (dictSet resp "dialogAction"
      (.jobj (dictSet da "message" (message_dict parse m)))) := by
    simp only [respMessage, setDialogActionField, h]
  refine ⟨h1, lookup_dictSet_ne _ _ _ _ hk1, lookup_dictSet_ne _ _ _ _ hk2,
    lookup_dictSet_eq _ _ _, ?_⟩
  rw [h1]
  show respMessage parse (dictSet resp "dialogAction"
    (.jobj (dictSet da "message" (message_dict parse m)))) m2 =
    respMessage parse resp m2
  simp only [respMessage, setDialogActionField, h, lookup_dictSet_eq]
  rw [dictSet_dictSet_same, dictSet_dictSet_same]

/-- Witness for C10: a Close response receives message hello and then
message bye; the envelope frame is preserved (the responseCard key is
untouched, the type field is untouched), the message field holds the
classification, and the chained result equals a single bye call. -/
theorem C10_witness :
    respMessage parseW (close_ true) "hello" =
      some (dictSet (close_ true) "dialogAction"
        (.jobj (dictSet [("type", .jstr "Close"), ("fulfillmentState", .jstr "Fulfilled")]
          "message" (message_dict parseW "hello")))) ∧
    List.lookup "responseCard" (dictSet (close_ true) "dialogAction"
      (.jobj (dictSet [("type", .jstr "Close"), ("fulfillmentState", .jstr "Fulfilled")]
        "message" (message_dict parseW "hello")))) =
      List.lookup "responseCard" (close_ true) ∧
    List.lookup "type" (dictSet [("type", .jstr "Close"), ("fulfillmentState", .jstr "Fulfilled")]
      "message" (message_dict parseW "hello")) =
      List.lookup "type" [("type", .jstr "Close"), ("fulfillmentState", .jstr "Fulfilled")] ∧
    List.lookup "message" (dictSet [("type", .jstr "Close"), ("fulfillmentState", .jstr "Fulfilled")]
      "message" (message_dict parseW "hello")) =
      some (message_dict parseW "hello") ∧
    (respMessage parseW (close_ true) "hello").bind
      (fun r => respMessage parseW r "bye") =
      respMessage parseW (close_ true) "bye" :=
  C10_message_frame parseW (close_ true)
    [("type", .jstr "Close"), ("fulfillmentState", .jstr "Fulfilled")]
    "hello" "bye" "responseCard" "type" rfl (by decide) (by decide)

end Flex
